import Mathlib

/-!
Verification development for the GPT4-Vision table-extraction add-on
(`src/main.py`, with `src/test2.py` as auxiliary evidence).

The Python source is shallowly embedded:

* a pandas `DataFrame`, as produced by this program's `pd.read_csv(..., sep="|",
  index_col=None)` call, is a list of column names, a list of row labels
  (a `RangeIndex` of Python ints in `main.py`) and a row-major grid of cells,
  where a cell is `none` for a missing value (`NaN`, arising from an
  empty field) and `some s` for the string `s`;
* `sys.exit` / uncaught exceptions become `Except` values;
* file handles opened in append mode become explicit lists of written
  rows/chunks passed in and returned;
* the platform (`documentcloud.addon.AddOn`) collaborators — document count,
  organisation id, the document list with page counts, and the outcome of
  `charge_credits` — are the fields of a `World` record, and the orchestrator
  `Vision.main` is a pure function from that record to the observable trace
  (message, charges issued, extraction calls, files, archive, upload).

String helpers are re-implemented structurally over `List Char` so that every
definition evaluates inside the kernel (`String.splitOn` in core is not
kernel-reducible); they model CPython `str.split(sep)` / `str.strip()` on the
ASCII whitespace the program actually meets.
-/

/-- Characters removed by Python `str.strip()` (ASCII whitespace subset). -/
def isPySpace (c : Char) : Bool :=
  c = ' ' || c = '\t' || c = '\n' || c = '\r' || c = '\x0b' || c = '\x0c'

/-- Strip whitespace from both ends of a character list. -/
def pyStripChars (cs : List Char) : List Char :=
  ((cs.dropWhile isPySpace).reverse.dropWhile isPySpace).reverse

/-- Python `s.strip()`. -/
def py_strip (s : String) : String := ⟨pyStripChars s.data⟩

/-- Split a character list at every occurrence of the separator character
(Python `str.split(sep)` with a one-character separator, the splitting that
`pd.read_csv(sep="|")` performs per line and that reading per `"\n"` lines
performs on the whole payload). -/
def splitCs (sep : Char) : List Char → List (List Char)
  | [] => [[]]
  | c :: rest =>
    if c = sep then [] :: splitCs sep rest
    else
      match splitCs sep rest with
      | [] => [[c]]
      | g :: gs => (c :: g) :: gs

/-- Split a string on a one-character separator. -/
def splitOnChar (sep : Char) (s : String) : List String :=
  (splitCs sep s.data).map (fun cs => ⟨cs⟩)

/-- A Python dictionary key as produced by `DataFrame.to_dict()`: either an
integer row label (the `RangeIndex` labels `main.py` produces) or a string. -/
inductive PyKey where
  | int (n : Int)
  | str (s : String)
deriving DecidableEq, Repr

/-- Python `key.strip()` as called by `TableEncoder.default` on the inner
dictionary keys: defined on strings, an `AttributeError` on ints. -/
def PyKey.strip : PyKey → Except String String
  | .str s => .ok (py_strip s)
  | .int _ => .error "AttributeError: int object has no attribute strip"

/-- The slice of a pandas DataFrame this program observes: ordered column
names, ordered row labels, and a row-major cell grid (`none` = `NaN`). -/
structure DataFrame where
  cols : List String
  index : List PyKey
  rows : List (List (Option String))
deriving DecidableEq, Repr

/-- The argument of `md_to_df`: either a raw string from the model or an
already-typed DataFrame (any non-string input is passed through). -/
inductive PyVal where
  | str (s : String)
  | df (d : DataFrame)
deriving DecidableEq, Repr

/-- The lines `pd.read_csv` parses from the payload: split on newline,
skipping blank lines (`skip_blank_lines=True` default, which also absorbs a
trailing newline). -/
def linesOf (s : String) : List String :=
  (splitOnChar '\n' s).filter (fun l => l != "")

/-- The pipe-separated fields of one line (`sep="|"`). -/
def fieldsOf (l : String) : List String := splitOnChar '|' l

/-- A parsed field as a cell: the empty field is `NaN` (pandas default
`na_values` detection for the data this program feeds it), any other field is
kept verbatim — `read_csv` does not strip whitespace. -/
def toCell (f : String) : Option String :=
  if f = "" then none else some f

/-- A data line's fields as a row of width `n`: short rows are padded with
`NaN` on the right, as the pandas parser does. -/
def padTo (n : Nat) (fs : List String) : List (Option String) :=
  fs.map toCell ++ List.replicate (n - fs.length) none

/-- `pd.read_csv(StringIO(data), sep="|", index_col=None)` on this program's
inputs: first non-blank line is the header, the remaining lines are data rows
labelled by a fresh integer `RangeIndex`; a data line with more fields than
the header is a `ParserError`, an empty payload an `EmptyDataError`. -/
def read_csv (s : String) : Except String DataFrame :=
  match linesOf s with
  | [] => .error "EmptyDataError: No columns to parse from file"
  | hd :: tl =>
    if tl.any (fun l => decide ((fieldsOf hd).length < (fieldsOf l).length)) then
      .error "ParserError: too many fields"
    else
      .ok { cols := fieldsOf hd
          , index := (List.range tl.length).map (fun i => PyKey.int i)
          , rows := tl.map (fun l => padTo (fieldsOf hd).length (fieldsOf l)) }

/-- `.dropna(axis=1, how="all")`: keep exactly the columns having at least one
non-`NaN` entry in some row (the separator row of dashes counts — it is still
present at this point of the pipeline). -/
def dropnaCols (d : DataFrame) : DataFrame :=
  let keep := (List.range d.cols.length).filter
    (fun j => d.rows.any (fun r => (r.getD j none).isSome))
  { cols := keep.map (fun j => d.cols.getD j "")
  , index := d.index
  , rows := d.rows.map (fun r => keep.map (fun j => r.getD j none)) }

/-- `.iloc[1:]`: drop the first data row (the markdown separator row) and its
label, keeping the remaining labels unchanged. -/
def iloc1 (d : DataFrame) : DataFrame :=
  { cols := d.cols, index := d.index.drop 1, rows := d.rows.drop 1 }

/-- `.applymap(lambda x: x.strip() if isinstance(x, str) else x)`: strip every
present cell, leave `NaN` alone; column names are untouched. -/
def applymapStrip (d : DataFrame) : DataFrame :=
  { cols := d.cols, index := d.index
  , rows := d.rows.map (fun r => r.map (Option.map py_strip)) }

/-- `md_to_df` from `src/main.py` lines 155-167: parse a string through the
pandas pipeline, pass any non-string input through unchanged. -/
def md_to_df : PyVal → Except String PyVal
  | .str s => (read_csv s).map (fun d => .df (applymapStrip (iloc1 (dropnaCols d))))
  | .df d => .ok (.df d)

/-- The cell contributed by line `l` at column position `j` (out-of-range and
empty fields are `NaN`). -/
def fieldCell (l : String) (j : Nat) : Option String :=
  toCell ((fieldsOf l).getD j "")

/-- The column positions `dropna(axis=1, how="all")` keeps when the header is
`hd` and the lines below it are `tl`: those with a non-empty field somewhere
below the header. -/
def keepIdx (hd : String) (tl : List String) : List Nat :=
  (List.range (fieldsOf hd).length).filter
    (fun j => tl.any (fun l => (fieldCell l j).isSome))

/-- A `Table` pydantic model instance: a caption and a validated dataframe. -/
structure Table where
  caption : String
  dataframe : DataFrame
deriving DecidableEq, Repr

/-- The page-marker cell the CSV accumulator writes
(`f"Page Number: {page_number}"`). -/
def pageMarkerCsv (page : Int) : String := "Page Number: " ++ toString page

/-- How `csv.writer.writerow` renders one cell of
`table.dataframe.values.tolist()`: strings verbatim, a `NaN` via `str(nan)`. -/
def csvCell : Option String → String
  | some s => s
  | none => "nan"

/-- `table.dataframe.values.tolist()` rendered for the CSV writer: the
row-major cell grid, without column headers. -/
def csvRows (d : DataFrame) : List (List String) :=
  d.rows.map (List.map csvCell)

/-- One iteration of the `for table in tables` loop of `save_tables_to_csv`:
a caption row, the data rows, then three `writer.writerow([])` blank rows. -/
def writeCsvTable (file : List (List String)) (t : Table) : List (List String) :=
  file ++ [[t.caption]] ++ csvRows t.dataframe ++ [[], [], []]

/-- `save_tables_to_csv` from `src/main.py` lines 144-153: the destination is
opened in append mode, so the existing file contents `file` stay in place; a
page-marker row is written, then each table in order. -/
def save_tables_to_csv (tables : List Table) (file : List (List String))
    (page : Int) : List (List String) :=
  tables.foldl writeCsvTable (file ++ [[pageMarkerCsv page]])

/-- A JSON value as produced by `json.dump` with `TableEncoder`
(`nan` is the non-standard `NaN` literal the encoder emits for a float nan). -/
inductive Json where
  | str (s : String)
  | num (n : Int)
  | obj (fields : List (String × Json))
  | arr (elems : List Json)
  | nan

/-- A chunk of the JSON destination file: raw text written with
`jsonfile.write(...)` or a JSON document written with `json.dump`. -/
inductive JChunk where
  | text (s : String)
  | jval (j : Json)

/-- A cell as the JSON encoder serialises it. -/
def cellJson : Option String → Json
  | some s => .str s
  | none => .nan

/-- Column `j` of the dataframe, top to bottom (`to_dict()` is column-major). -/
def colValues (d : DataFrame) (j : Nat) : List (Option String) :=
  d.rows.map (fun r => r.getD j none)

/-- `TableEncoder.default` from `src/main.py` lines 116-134 applied to a
`Table`: for each column of `o.dataframe.to_dict()` the key is stripped, and
each inner key — a row label — has `.strip()` called on it, which raises
`AttributeError` when the label is an int (the `RangeIndex` labels every
dataframe in `main.py` carries); the cell values are passed through unchanged. -/
def tableDefault (t : Table) : Except String Json := do
  let d := t.dataframe
  let cleaned ← (List.range d.cols.length).mapM (fun j => do
    let vals ← (d.index.zip (colValues d j)).mapM (fun kv => do
      let ks ← kv.1.strip
      pure (ks, cellJson kv.2))
    pure (py_strip (d.cols.getD j ""), Json.obj vals))
  pure (Json.obj [("caption", Json.str t.caption), ("dataframe", Json.obj cleaned)])

/-- `save_tables_to_json` from `src/main.py` lines 136-142: append a
`"Page number: N"` text marker, then the `json.dump` of the table list (an
encoder error — see `tableDefault` — propagates), then three newlines. -/
def save_tables_to_json (tables : List Table) (file : List JChunk)
    (page : Int) : Except String (List JChunk) := do
  let enc ← tables.mapM tableDefault
  pure (file ++ [JChunk.text ("Page number: " ++ toString page),
                 JChunk.jval (Json.arr enc),
                 JChunk.text "\n", JChunk.text "\n", JChunk.text "\n"])

/-- The retry loop of `tenacity.retry(stop=stop_after_attempt(6))`, fuelled:
`retryFrom att fuel k` runs attempt `k`; with fuel left a failure moves on to
attempt `k+1`, with no fuel the attempt's own outcome is final. -/
def retryFrom {α : Type} (att : Nat → Except String α) :
    Nat → Nat → Except String α
  | 0, k => att k
  | fuel + 1, k =>
    match att k with
    | .ok a => .ok a
    | .error _ => retryFrom att fuel (k + 1)

/-- The retried `extract` of `src/main.py` line 210: attempts are numbered
from 1 and bounded at 6 (`stop_after_attempt(6)`); after the sixth failure
the error aborts the caller (nothing in `Vision.main` catches it). -/
def extractRetry {α : Type} (att : Nat → Except String α) : Except String α :=
  retryFrom att 5 1

/-- The upper end of the jitter range after attempt `n`, per
`tenacity.wait_random_exponential(min=1, max=60)` (multiplier 1, base 2):
the exponential `2 ^ n`, clamped below by 1 and above by 60. -/
def waitHigh (n : Nat) : ℚ := max (max 0 1) (min (1 * 2 ^ n) 60)

/-- The sampled wait after attempt `n`: `random.uniform(0, waitHigh n)`,
written with the draw `r n ∈ [0, 1]` made explicit. -/
def retryWait (r : Nat → ℚ) (n : Nat) : ℚ := r n * waitHigh n

/-- A document as the platform presents it: a stable id and a page count. -/
structure Doc where
  id : Int
  page_count : Int
deriving DecidableEq, Repr

/-- The run configuration `self.data` (absent keys are `none`; `main` and
`calculate_cost` read `start_page` with default 1, `output_format` with
default `"csv"`). -/
structure RunData where
  start_page : Option Int := none
  end_page : Option Int := none
  output_format : Option String := none
deriving DecidableEq, Repr

/-- The platform collaborators `Vision` consults: `get_document_count()`
(`none` when no documents were selected), the truthiness of `self.org_id`,
`get_documents()`, and whether `charge_credits` succeeds (a `False` models a
raised `ValueError`/`APIError`). -/
structure World where
  document_count : Option Nat := none
  org_id_truthy : Bool := true
  documents : List Doc := []
  charge_ok : Bool := true
deriving DecidableEq, Repr

/-- The `for doc in documents` loop of `Vision.calculate_cost` (lines 37-55),
accumulating `total_num_pages`; `sys.exit(1)` on an unset end page or an end
page below the start page becomes an error carrying the exit code and the
message set. -/
def costGo (data : RunData) : List Doc → Int → Except (Int × String) Int
  | [], total => .ok total
  | doc :: rest, total =>
    match data.end_page with
    | none => .error (1, "No end page provided. Please provide one and try again.")
    | some e =>
      if e < data.start_page.getD 1 then
        .error (1, "You provided an end page that is smaller than the start page. Try again.")
      else
        costGo data rest
          (total + ((if e ≤ doc.page_count then e else doc.page_count)
                    - data.start_page.getD 1 + 1))

/-- `Vision.calculate_cost` from `src/main.py` lines 35-58: the page total
over all documents, times 7. -/
def calculate_cost (data : RunData) (docs : List Doc) : Except (Int × String) Int :=
  (costGo data docs 0).map (· * 7)

/-- `Vision.validate` from `src/main.py` lines 61-82: returns the charge
requests issued (`charge_credits` calls, whether or not they succeed) and
either the exit message of an aborted run or the boolean `validate` returns. -/
def validateRun (w : World) (data : RunData) : List Int × Except String Bool :=
  if w.document_count = none then
    ([], .error "It looks like no documents were selected. Search for some or select them and run again.")
  else if !w.org_id_truthy then
    ([], .error "No organization to charge.")
  else
    match calculate_cost data w.documents with
    | .error em => ([], .error em.2)
    | .ok cost => ([cost], .ok w.charge_ok)

/-- Python `range(a, b)` over ints. -/
def pyRange (a b : Int) : List Int :=
  (List.range (b - a).toNat).map (fun i => a + i)

/-- `outer_bound` from `src/main.py` lines 245-247: `end_page + 1`, clamped
to `document.page_count + 1` when `end_page` exceeds the page count. -/
def csvOuterBound (e pc : Int) : Int :=
  if e > pc then pc + 1 else e + 1

/-- The pages the CSV branch iterates: `range(start_page, outer_bound)`. -/
def csvPages (s e pc : Int) : List Int := pyRange s (csvOuterBound e pc)

/-- The pages the JSON branch iterates: `range(start_page, end_page + 1)` —
the clamped `outer_bound` computed just above this loop is not used here. -/
def jsonPages (s e : Int) : List Int := pyRange s (e + 1)

/-- The per-document file name in CSV mode (`f"tables-{document.id}.csv"`). -/
def csvName (docId : Int) : String := "tables-" ++ toString docId ++ ".csv"

/-- The per-document file name in JSON mode. -/
def jsonName (docId : Int) : String := "tables-" ++ toString docId ++ ".json"

/-- One iteration of the `for document in self.get_documents()` loop of
`Vision.main` (lines 244-263), accumulating the extraction calls made
(document id, page number) and the per-document files written and archived;
an `output_format` other than `"csv"`/`"json"` matches neither branch and
contributes nothing. -/
def docStep (s e : Int) (fmt : String)
    (acc : List (Int × Int) × List String) (d : Doc) :
    List (Int × Int) × List String :=
  if fmt = "csv" then
    (acc.1 ++ (csvPages s e d.page_count).map (fun p => (d.id, p)),
     acc.2 ++ [csvName d.id])
  else if fmt = "json" then
    (acc.1 ++ (jsonPages s e).map (fun p => (d.id, p)),
     acc.2 ++ [jsonName d.id])
  else acc

/-- The observable trace of one run of `Vision.main`: the run-level message
of an early exit (`none` when the run reaches the upload), the charge
requests issued, the extraction calls made, the files created, the archive
contents, and whether the archive was uploaded. -/
structure RunResult where
  exitMsg : Option String
  charges : List Int
  extractions : List (Int × Int)
  created_files : List String
  archive : List String
  uploaded : Bool
deriving DecidableEq, Repr

/-- `Vision.main` from `src/main.py` lines 84-269: validate (which charges),
re-check the page range, then run the document loop and upload the archive.
Extractions are recorded as calls; their results do not influence the trace
shape (a model failure would abort the run, which no claim about this
function depends on). -/
def mainRun (w : World) (data : RunData) : RunResult :=
  let v := validateRun w data
  match v.2 with
  | .error m =>
    ⟨some m, v.1, [], [], [], false⟩
  | .ok false =>
    ⟨some "You do not have sufficient AI credits to run this Add-On on this document set",
     v.1, [], [], [], false⟩
  | .ok true =>
    let s := data.start_page.getD 1
    let e := data.end_page.getD 1
    let fmt := data.output_format.getD "csv"
    if e < s then
      ⟨some "The end page you provided is smaller than the start page, try again",
       v.1, [], [], [], false⟩
    else if s < 1 then
      ⟨some "Your start page is less than 1, please try again",
       v.1, [], [], [], false⟩
    else
      let acc := w.documents.foldl (docStep s e fmt) ([], [])
      ⟨none, v.1, acc.1, acc.2, acc.2, true⟩

/-- A small markdown table as the model emits it: header, separator row of
dashes, one data row. Note the whitespace inside the header fields. -/
def mdSample : String := "| Name | Score |\n|---|---|\n| ann | 10 |"

/-- A markdown table whose middle column is empty in every data row but, like
every column, carries dashes in the separator row. -/
def mdSampleEmptyCol : String := "| A | B | C |\n|---|---|---|\n| x || y |"

/-- A table with one data row of two cells, for exercising the CSV writer. -/
def tblTwoCols : Table :=
  ⟨"Caption A", ⟨["H1", "H2"], [PyKey.int 1], [[some "1", some "2"]]⟩⟩

/-- A table whose dataframe carries the integer `RangeIndex` labels every
dataframe in `main.py` carries. -/
def tblIntLabels : Table :=
  ⟨"Quarterly", ⟨["Revenue"], [PyKey.int 1], [[some "100"]]⟩⟩

/-- The same table with string row labels (the situation of `test2.py`, whose
`read_csv` uses `index_col=1`), on which the encoder succeeds. -/
def tblStrLabels : Table :=
  ⟨"Quarterly", ⟨[" Revenue "], [PyKey.str " r1 "], [[some "100"]]⟩⟩

/-- A typed dataframe used to exercise the pass-through branch of `md_to_df`. -/
def dfPassEx : DataFrame := ⟨["A"], [PyKey.int 1], [[some "x"]]⟩

/-- The `for table in tables` loop of the CSV writer, in closed form. -/
theorem foldl_writeCsvTable (tables : List Table) (init : List (List String)) :
    tables.foldl writeCsvTable init
      = init ++ (tables.map
          (fun t => [[t.caption]] ++ csvRows t.dataframe ++ [[], [], []])).flatten := by
  induction tables generalizing init with
  | nil => simp
  | cons t ts ih =>
    rw [List.foldl_cons, ih]
    simp [writeCsvTable, List.append_assoc]

/-- C3 (amended: the writer emits three blank separator rows, not two).
`save_tables_to_csv` appends to the existing file contents, in order: one
page-marker row, then for each table one caption row followed by the raw data
rows — column headers never appear — followed by exactly three blank rows. -/
theorem save_tables_to_csv_layout (tables : List Table) (file : List (List String))
    (page : Int) :
    save_tables_to_csv tables file page
      = file ++ [[pageMarkerCsv page]]
        ++ (tables.map
            (fun t => [[t.caption]] ++ csvRows t.dataframe ++ [[], [], []])).flatten := by
  rw [save_tables_to_csv, foldl_writeCsvTable]

/-- C3 counterexample: on one single-row table the writer produces three
blank rows after the table, so the claimed layout with exactly two blank
separator rows does not match the file the code writes. -/
theorem save_tables_to_csv_two_blanks_false :
    save_tables_to_csv [tblTwoCols] [] 4
      = [["Page Number: 4"], ["Caption A"], ["1", "2"], [], [], []]
    ∧ save_tables_to_csv [tblTwoCols] [] 4
        ≠ [["Page Number: 4"], ["Caption A"], ["1", "2"], [], []] :=
  ⟨rfl, by decide⟩

/-- C9: an empty table list is a valid outcome — the CSV accumulator appends
only the page-marker row (no caption rows, no data rows), and the JSON
accumulator succeeds, appending the marker and an empty array. -/
theorem empty_tables_write_marker_only (file : List (List String))
    (jfile : List JChunk) (page : Int) :
    save_tables_to_csv [] file page = file ++ [[pageMarkerCsv page]]
    ∧ save_tables_to_json [] jfile page
        = .ok (jfile ++ [JChunk.text ("Page number: " ++ toString page),
                         JChunk.jval (Json.arr []),
                         JChunk.text "\n", JChunk.text "\n", JChunk.text "\n"]) :=
  ⟨rfl, rfl⟩

/-- The cost loop of `Vision.calculate_cost`, in closed form: with an end
page set and not below the start page, it sums the per-document effective
page counts on top of the accumulator. -/
theorem costGo_ok (data : RunData) (e : Int) (he : data.end_page = some e)
    (hse : data.start_page.getD 1 ≤ e) :
    ∀ (docs : List Doc) (total : Int),
      costGo data docs total
        = .ok (total + (docs.map
            (fun d => min e d.page_count - data.start_page.getD 1 + 1)).sum) := by
  intro docs
  induction docs with
  | nil => intro total; simp [costGo]
  | cons d rest ih =>
    intro total
    simp only [costGo, he]
    rw [if_neg (not_lt.mpr hse)]
    rw [ih]
    have hmin : (if e ≤ d.page_count then e else d.page_count) = min e d.page_count :=
      (min_def e d.page_count).symm
    rw [hmin, List.map_cons, List.sum_cons]
    congr 1
    ring

/-- C5: with an end page configured and at least the start page, the charged
cost is 7 times the sum over the documents of
`min(end_page, page_count) - start_page + 1`. -/
theorem calculate_cost_formula (data : RunData) (docs : List Doc) (e : Int)
    (he : data.end_page = some e) (hse : data.start_page.getD 1 ≤ e) :
    calculate_cost data docs
      = .ok (7 * (docs.map
          (fun d => min e d.page_count - data.start_page.getD 1 + 1)).sum) := by
  rw [calculate_cost, costGo_ok data e he hse docs 0]
  simp [Except.map, mul_comm]

/-- C5 witness: two documents with page counts 10 and 3, start page 2, end
page 5 — effective pages 4 and 2, cost 42. -/
theorem calculate_cost_formula_witness :
    calculate_cost ⟨some 2, some 5, none⟩ [⟨1, 10⟩, ⟨2, 3⟩] = .ok 42 := by
  rw [calculate_cost_formula ⟨some 2, some 5, none⟩ [⟨1, 10⟩, ⟨2, 3⟩] 5 rfl (by decide)]
  rfl

/-- C8: `md_to_df` passes non-string input through unchanged, and parsing is
idempotent — feeding any successful parse result back in returns it as is. -/
theorem md_to_df_pass_through_idempotent :
    (∀ d : DataFrame, md_to_df (PyVal.df d) = .ok (PyVal.df d))
    ∧ (∀ v w : PyVal, md_to_df v = .ok w → md_to_df w = .ok w) := by
  refine ⟨fun d => rfl, fun v w h => ?_⟩
  cases v with
  | df d =>
    simp only [md_to_df] at h
    cases h
    rfl
  | str s =>
    simp only [md_to_df] at h
    cases hr : read_csv s with
    | error msg => rw [hr] at h; simp [Except.map] at h
    | ok d0 =>
      rw [hr] at h
      simp only [Except.map] at h
      cases h
      rfl

/-- C8 witness: the pass-through applied twice on a concrete typed frame. -/
theorem md_to_df_idempotent_witness :
    md_to_df (PyVal.df dfPassEx) = .ok (PyVal.df dfPassEx) :=
  md_to_df_pass_through_idempotent.2 (PyVal.df dfPassEx) (PyVal.df dfPassEx) rfl

/-- C1: the CSV branch clamps its page range to the document's page count,
but the JSON branch iterates `range(start_page, end_page + 1)` and ignores
the clamped `outer_bound` computed just above it. With one 3-page document
(id 9), `start_page = 1` and `end_page = 5`, the JSON run requests
extractions for pages 4 and 5 past the document's last page, while the CSV
run stops at page 3. -/
theorem json_branch_ignores_page_count_clamp :
    (mainRun ⟨some 1, true, [⟨9, 3⟩], true⟩ ⟨some 1, some 5, some "json"⟩).extractions
      = [(9, 1), (9, 2), (9, 3), (9, 4), (9, 5)]
    ∧ (mainRun ⟨some 1, true, [⟨9, 3⟩], true⟩ ⟨some 1, some 5, some "csv"⟩).extractions
      = [(9, 1), (9, 2), (9, 3)]
    ∧ jsonPages 1 5 = [1, 2, 3, 4, 5]
    ∧ csvPages 1 5 3 = [1, 2, 3] :=
  ⟨rfl, rfl, rfl, rfl⟩

/-- C7: the JSON accumulator crashes instead of encoding. Every dataframe
`main.py` builds carries integer `RangeIndex` row labels (see the third
conjunct: `md_to_df` yields `PyKey.int` labels), and `TableEncoder.default`
calls `.strip()` on those labels, an `AttributeError`; so `json.dump` raises
for any table with at least one column and one row. With string labels — the
`test2.py` configuration, `index_col=1` — the same encoder produces exactly
the column-major object the claim describes (second conjunct). -/
theorem json_encoder_crashes_on_int_labels :
    save_tables_to_json [tblIntLabels] [] 2
      = .error "AttributeError: int object has no attribute strip"
    ∧ tableDefault tblStrLabels
      = .ok (Json.obj [("caption", Json.str "Quarterly"),
          ("dataframe", Json.obj [("Revenue", Json.obj [("r1", Json.str "100")])])])
    ∧ md_to_df (PyVal.str mdSample)
      = .ok (PyVal.df ⟨[" Name ", " Score "], [PyKey.int 1],
          [[some "ann", some "10"]]⟩) :=
  ⟨rfl, rfl, rfl⟩

/-- The retry loop consults only the attempts it can reach: agreeing on
attempts `k .. k + fuel` makes the outcomes agree. -/
theorem retryFrom_congr {α : Type} (att att2 : Nat → Except String α) :
    ∀ (fuel k : Nat), (∀ j, k ≤ j → j ≤ k + fuel → att j = att2 j) →
      retryFrom att fuel k = retryFrom att2 fuel k := by
  intro fuel
  induction fuel with
  | zero =>
    intro k h
    simpa [retryFrom] using h k le_rfl (by omega)
  | succ n ih =>
    intro k h
    simp only [retryFrom]
    rw [h k le_rfl (by omega)]
    cases h2 : att2 k with
    | ok a => rfl
    | error msg => exact ih (k + 1) (fun j hj1 hj2 => h j (by omega) (by omega))

/-- If every reachable attempt fails, the retry loop fails with the error of
the last attempt it made. -/
theorem retryFrom_all_error {α : Type} (att : Nat → Except String α)
    (e : Nat → String) :
    ∀ (fuel k : Nat), (∀ j, k ≤ j → j ≤ k + fuel → att j = .error (e j)) →
      retryFrom att fuel k = .error (e (k + fuel)) := by
  intro fuel
  induction fuel with
  | zero =>
    intro k h
    simpa [retryFrom] using h k le_rfl (by omega)
  | succ n ih =>
    intro k h
    simp only [retryFrom]
    rw [h k le_rfl (by omega)]
    have hrec := ih (k + 1) (fun j hj1 hj2 => h j (by omega) (by omega))
    rw [hrec]
    have harith : k + 1 + n = k + (n + 1) := by omega
    rw [harith]

/-- The jitter range's upper bound never drops below 1 second. -/
theorem waitHigh_ge_one (n : Nat) : (1 : ℚ) ≤ waitHigh n := by
  rw [waitHigh]
  refine le_trans ?_ (le_max_left _ _)
  norm_num

/-- The jitter range's upper bound never exceeds 60 seconds. -/
theorem waitHigh_le_sixty (n : Nat) : waitHigh n ≤ 60 := by
  rw [waitHigh]
  apply max_le
  · norm_num
  · exact min_le_right _ _

/-- C4 (amended: the 1-second floor applies to the jitter range's upper
bound, not to the sampled wait, which `random.uniform(0, bound)` can place
anywhere in `[0, bound]`). The retried `extract` consults at most 6 attempts;
if all 6 fail, the 6th attempt's error propagates to the caller uncaught;
every sampled wait lies in `[0, 60]` seconds; and the exponentially growing
bound of the jitter range is clamped to `[1, 60]` seconds. -/
theorem extract_retry_policy {α : Type} (att att2 : Nat → Except String α)
    (e : Nat → String) (r : Nat → ℚ)
    (hr : ∀ n, 0 ≤ r n ∧ r n ≤ 1) :
    ((∀ k, 1 ≤ k → k ≤ 6 → att k = att2 k) → extractRetry att = extractRetry att2)
    ∧ ((∀ k, 1 ≤ k → k ≤ 6 → att k = .error (e k)) → extractRetry att = .error (e 6))
    ∧ (∀ n, 0 ≤ retryWait r n ∧ retryWait r n ≤ 60)
    ∧ (∀ n, 1 ≤ waitHigh n ∧ waitHigh n ≤ 60) := by
  refine ⟨?_, ?_, ?_, fun n => ⟨waitHigh_ge_one n, waitHigh_le_sixty n⟩⟩
  · intro h
    exact retryFrom_congr att att2 5 1 (fun j h1 h2 => h j h1 (by omega))
  · intro h
    exact retryFrom_all_error att e 5 1 (fun j h1 h2 => h j h1 (by omega))
  · intro n
    have hw0 : (0 : ℚ) ≤ waitHigh n := le_trans (by norm_num) (waitHigh_ge_one n)
    refine ⟨mul_nonneg (hr n).1 hw0, ?_⟩
    calc retryWait r n = r n * waitHigh n := rfl
      _ ≤ 1 * waitHigh n := mul_le_mul_of_nonneg_right (hr n).2 hw0
      _ = waitHigh n := one_mul _
      _ ≤ 60 := waitHigh_le_sixty n

/-- C4 counterexample: `random.uniform(0, bound)` may draw 0, a legitimate
draw (`r = 0` lies in `[0, 1]`), and then the wait after the first failed
attempt is 0 seconds — below the claimed 1-second floor. -/
theorem retry_wait_floor_false :
    retryWait (fun _ => 0) 1 = 0
    ∧ ¬ (1 ≤ retryWait (fun _ => 0) 1)
    ∧ (0 : ℚ) ≤ 0 ∧ (0 : ℚ) ≤ 1 := by
  refine ⟨by simp [retryWait], ?_, by norm_num, by norm_num⟩
  simp [retryWait]

/-- C4 witness: six failing attempts propagate the last error, and a
concrete half-range draw yields a wait within `[0, 60]`. -/
theorem extract_retry_policy_witness :
    extractRetry (fun _ => (Except.error "boom" : Except String Nat)) = .error "boom"
    ∧ 0 ≤ retryWait (fun _ => (1 : ℚ) / 2) 3
    ∧ retryWait (fun _ => (1 : ℚ) / 2) 3 ≤ 60 := by
  have h := extract_retry_policy (fun _ => (Except.error "boom" : Except String Nat))
    (fun _ => (Except.error "boom" : Except String Nat)) (fun _ => "boom")
    (fun _ => (1 : ℚ) / 2) (fun n => by norm_num)
  exact ⟨h.2.1 (fun k h1 h2 => rfl), (h.2.2.1 3).1, (h.2.2.1 3).2⟩

/-- The document loop leaves its accumulator untouched when the output
format matches neither branch. -/
theorem foldl_docStep_other (s e : Int) (f : String)
    (hcsv : f ≠ "csv") (hjson : f ≠ "json") :
    ∀ (docs : List Doc) (acc : List (Int × Int) × List String),
      docs.foldl (docStep s e f) acc = acc := by
  intro docs
  induction docs with
  | nil => intro acc; rfl
  | cons d rest ih =>
    intro acc
    rw [List.foldl_cons]
    rw [show docStep s e f acc d = acc from by simp [docStep, hcsv, hjson]]
    exact ih acc

/-- C10: a run whose output format is neither `"csv"` nor `"json"` (after a
validation that passes and a page range that survives the re-checks) performs
no extraction, creates no per-document file, archives nothing — yet raises no
error: the empty archive is uploaded and the run ends without a message. -/
theorem unknown_format_skips_loop (w : World) (data : RunData)
    (hc : w.document_count ≠ none) (horg : w.org_id_truthy = true)
    (hch : w.charge_ok = true) (e : Int) (he : data.end_page = some e)
    (hs1 : 1 ≤ data.start_page.getD 1) (hse : data.start_page.getD 1 ≤ e)
    (f : String) (hf : data.output_format = some f)
    (hcsv : f ≠ "csv") (hjson : f ≠ "json") :
    (mainRun w data).exitMsg = none
    ∧ (mainRun w data).extractions = []
    ∧ (mainRun w data).created_files = []
    ∧ (mainRun w data).archive = []
    ∧ (mainRun w data).uploaded = true := by
  have hcost : calculate_cost data w.documents
      = .ok ((w.documents.map
          (fun d => min e d.page_count - data.start_page.getD 1 + 1)).sum * 7) := by
    rw [calculate_cost, costGo_ok data e he hse w.documents 0]
    simp [Except.map]
  have hv : validateRun w data
      = ([(w.documents.map
          (fun d => min e d.page_count - data.start_page.getD 1 + 1)).sum * 7], .ok true) := by
    rw [validateRun, if_neg hc]
    rw [horg]
    simp [hcost, hch]
  simp only [mainRun, hv, he, hf, Option.getD_some]
  rw [if_neg (not_lt.mpr hse), if_neg (not_lt.mpr hs1)]
  rw [foldl_docStep_other (data.start_page.getD 1) e f hcsv hjson w.documents ([], [])]
  exact ⟨rfl, rfl, rfl, rfl, rfl⟩

/-- C10 witness: a run with `output_format = "txt"` on one two-page document
uploads an empty archive with no extraction calls. -/
theorem unknown_format_skips_loop_witness :
    (mainRun ⟨some 1, true, [⟨1, 2⟩], true⟩ ⟨some 1, some 1, some "txt"⟩).extractions = []
    ∧ (mainRun ⟨some 1, true, [⟨1, 2⟩], true⟩ ⟨some 1, some 1, some "txt"⟩).archive = []
    ∧ (mainRun ⟨some 1, true, [⟨1, 2⟩], true⟩ ⟨some 1, some 1, some "txt"⟩).uploaded = true := by
  have h := unknown_format_skips_loop ⟨some 1, true, [⟨1, 2⟩], true⟩
    ⟨some 1, some 1, some "txt"⟩ (by decide) rfl rfl 1 rfl (by decide) (by decide)
    "txt" rfl (by decide) (by decide)
  exact ⟨h.2.1, h.2.2.2.1, h.2.2.2.2⟩

/-- C6 (amended: the `start_page < 1` check sits in `Vision.main` after
`validate` has already called `charge_credits`). A run with no selected
documents, or — with at least one document — an unset end page or an end page
below the start page, terminates with a run-level message before any charge
request is issued; a run whose start page is below 1 (with a valid end page)
also terminates with a run-level message, but only after the validation
stage, so the charge may already have been issued (see the counterexample). -/
theorem invalid_config_run_termination (w : World) (data : RunData) :
    (w.document_count = none →
      (mainRun w data).exitMsg.isSome ∧ (mainRun w data).charges = [])
    ∧ (w.documents ≠ [] → data.end_page = none →
      (mainRun w data).exitMsg.isSome ∧ (mainRun w data).charges = [])
    ∧ (∀ e : Int, w.documents ≠ [] → data.end_page = some e →
        e < data.start_page.getD 1 →
        (mainRun w data).exitMsg.isSome ∧ (mainRun w data).charges = [])
    ∧ (∀ e : Int, data.end_page = some e → data.start_page.getD 1 ≤ e →
        data.start_page.getD 1 < 1 → (mainRun w data).exitMsg.isSome) := by
  refine ⟨?_, ?_, ?_, ?_⟩
  · intro hc
    have hv : validateRun w data
        = ([], .error "It looks like no documents were selected. Search for some or select them and run again.") := by
      rw [validateRun, if_pos hc]
    simp [mainRun, hv]
  · intro hne hend
    obtain ⟨d, rest, hdocs⟩ := List.exists_cons_of_ne_nil hne
    by_cases hc : w.document_count = none
    · have hv : validateRun w data
          = ([], .error "It looks like no documents were selected. Search for some or select them and run again.") := by
        rw [validateRun, if_pos hc]
      simp [mainRun, hv]
    · by_cases ho : w.org_id_truthy
      · have hcost : calculate_cost data w.documents
            = .error (1, "No end page provided. Please provide one and try again.") := by
          rw [hdocs]
          simp [calculate_cost, costGo, hend, Except.map]
        have hv : validateRun w data
            = ([], .error "No end page provided. Please provide one and try again.") := by
          rw [validateRun, if_neg hc]
          simp [ho, hcost]
        simp [mainRun, hv]
      · have hv : validateRun w data = ([], .error "No organization to charge.") := by
          rw [validateRun, if_neg hc]
          simp [ho]
        simp [mainRun, hv]
  · intro e hne hend hlt
    obtain ⟨d, rest, hdocs⟩ := List.exists_cons_of_ne_nil hne
    by_cases hc : w.document_count = none
    · have hv : validateRun w data
          = ([], .error "It looks like no documents were selected. Search for some or select them and run again.") := by
        rw [validateRun, if_pos hc]
      simp [mainRun, hv]
    · by_cases ho : w.org_id_truthy
      · have hcost : calculate_cost data w.documents
            = .error (1, "You provided an end page that is smaller than the start page. Try again.") := by
          rw [hdocs]
          simp only [calculate_cost, costGo, hend]
          rw [if_pos hlt]
          rfl
        have hv : validateRun w data
            = ([], .error "You provided an end page that is smaller than the start page. Try again.") := by
          rw [validateRun, if_neg hc]
          simp [ho, hcost]
        simp [mainRun, hv]
      · have hv : validateRun w data = ([], .error "No organization to charge.") := by
          rw [validateRun, if_neg hc]
          simp [ho]
        simp [mainRun, hv]
  · intro e hend hse hs1
    by_cases hc : w.document_count = none
    · have hv : validateRun w data
          = ([], .error "It looks like no documents were selected. Search for some or select them and run again.") := by
        rw [validateRun, if_pos hc]
      simp [mainRun, hv]
    · by_cases ho : w.org_id_truthy
      · have hcost : calculate_cost data w.documents
            = .ok ((w.documents.map
                (fun d => min e d.page_count - data.start_page.getD 1 + 1)).sum * 7) := by
          rw [calculate_cost, costGo_ok data e hend hse w.documents 0]
          simp [Except.map]
        have hv : validateRun w data
            = ([(w.documents.map
                (fun d => min e d.page_count - data.start_page.getD 1 + 1)).sum * 7],
               .ok w.charge_ok) := by
          rw [validateRun, if_neg hc]
          simp [ho, hcost]
        cases hch : w.charge_ok with
        | false =>
          rw [hch] at hv
          simp [mainRun, hv]
        | true =>
          rw [hch] at hv
          simp only [mainRun, hv, hend, Option.getD_some]
          rw [if_neg (not_lt.mpr hse), if_pos hs1]
          rfl
      · have hv : validateRun w data = ([], .error "No organization to charge.") := by
          rw [validateRun, if_neg hc]
          simp [ho]
        simp [mainRun, hv]

/-- C6 counterexample: with `start_page = 0`, `end_page = 2` and one 5-page
document, the run does terminate with the start-page message — but `validate`
has already issued a charge request of 21 credits before that check runs, so
"no charge request is ever issued" fails for the start-page-below-1 case. -/
theorem start_page_below_one_still_charges :
    (mainRun ⟨some 1, true, [⟨1, 5⟩], true⟩ ⟨some 0, some 2, some "csv"⟩).exitMsg
      = some "Your start page is less than 1, please try again"
    ∧ (mainRun ⟨some 1, true, [⟨1, 5⟩], true⟩ ⟨some 0, some 2, some "csv"⟩).charges
      = [21] :=
  ⟨rfl, rfl⟩

/-- C6 witness: each amended case applied at a concrete run — no documents;
unset end page; end page below start page; start page below 1. -/
theorem invalid_config_run_termination_witness :
    ((mainRun ⟨none, true, [], true⟩ ⟨none, none, none⟩).exitMsg.isSome
      ∧ (mainRun ⟨none, true, [], true⟩ ⟨none, none, none⟩).charges = [])
    ∧ (mainRun ⟨some 1, true, [⟨1, 5⟩], true⟩ ⟨some 1, none, none⟩).charges = []
    ∧ (mainRun ⟨some 1, true, [⟨1, 5⟩], true⟩ ⟨some 3, some 2, none⟩).charges = []
    ∧ (mainRun ⟨some 1, true, [⟨1, 5⟩], true⟩ ⟨some 0, some 2, none⟩).exitMsg.isSome := by
  have h1 := invalid_config_run_termination ⟨none, true, [], true⟩ ⟨none, none, none⟩
  have h2 := invalid_config_run_termination ⟨some 1, true, [⟨1, 5⟩], true⟩ ⟨some 1, none, none⟩
  have h3 := invalid_config_run_termination ⟨some 1, true, [⟨1, 5⟩], true⟩ ⟨some 3, some 2, none⟩
  have h4 := invalid_config_run_termination ⟨some 1, true, [⟨1, 5⟩], true⟩ ⟨some 0, some 2, none⟩
  exact ⟨h1.1 rfl,
         (h2.2.1 (by decide) rfl).2,
         (h3.2.2.1 2 (by decide) rfl (by decide)).2,
         h4.2.2.2 2 rfl (by decide) (by decide)⟩

/-- Reading a padded row at a position within the header width gives exactly
the line's field at that position, empty or missing fields being `NaN`. -/
theorem getD_padTo (n j : Nat) (fs : List String) (hj : j < n) :
    (padTo n fs).getD j none = toCell (fs.getD j "") := by
  rw [padTo, List.getD_eq_getElem?_getD, List.getD_eq_getElem?_getD,
    List.getElem?_append]
  by_cases h : j < fs.length
  · rw [if_pos (by simpa using h)]
    rw [List.getElem?_map, List.getElem?_eq_getElem h]
    simp
  · rw [if_neg (by simpa using h)]
    have h1 : fs.length ≤ j := not_lt.mp h
    have h2 : j - (fs.map toCell).length < n - fs.length := by
      simp only [List.length_map]
      omega
    have hrep : (List.replicate (n - fs.length) (none : Option String))[j -
        (fs.map toCell).length]? = some none := by
      simp only [List.getElem?_replicate, List.length_map]
      rw [if_pos (by omega)]
    rw [hrep]
    have hnone : fs[j]? = none := by
      rw [List.getElem?_eq_none_iff]
      omega
    rw [hnone]
    simp [toCell]

/-- The column-emptiness test `dropna` applies to the padded parsed rows
agrees, position by position, with the emptiness of the source fields. -/
theorem rows_any_eq (hd : String) (tl : List String) (j : Nat)
    (hj : j < (fieldsOf hd).length) :
    (tl.map (fun l => padTo (fieldsOf hd).length (fieldsOf l))).any
        (fun r => (r.getD j none).isSome)
      = tl.any (fun l => (fieldCell l j).isSome) := by
  induction tl with
  | nil => rfl
  | cons l ls ih =>
    simp only [List.map_cons, List.any_cons, ih]
    rw [getD_padTo _ j _ hj]
    rfl

/-- The columns `dropna(axis=1, how="all")` keeps are exactly `keepIdx`. -/
theorem keep_eq (hd : String) (tl : List String) :
    (List.range (fieldsOf hd).length).filter
        (fun j => (tl.map (fun l => padTo (fieldsOf hd).length (fieldsOf l))).any
          (fun r => (r.getD j none).isSome))
      = keepIdx hd tl := by
  rw [keepIdx]
  apply List.filter_congr
  intro j hj
  exact rows_any_eq hd tl j (List.mem_range.mp hj)

/-- C2 (amended: whitespace is stripped from every cell but NOT from header
names, and a column is dropped only when its fields are empty in every line
below the header — the separator line of dashes counts, so only the edge
columns produced by the leading and trailing pipes are dropped, not columns
that are merely empty in all data rows). For a payload whose lines are a
header `hd` over lines `tl` none of which is wider than the header, the
parse succeeds and yields: the unstripped header names of the kept column
positions, in source order; integer row labels `1, 2, ...`; and one row per
source line past the separator, in source order, holding the stripped cells
of the kept positions. Hence the row count is the data-line count (header
and separator excluded) and the column count is the number of kept
positions. -/
theorem md_to_df_table_shape (s hd : String) (tl : List String)
    (hl : linesOf s = hd :: tl)
    (hw : ∀ l ∈ tl, (fieldsOf l).length ≤ (fieldsOf hd).length) :
    md_to_df (PyVal.str s)
      = .ok (PyVal.df
          { cols := (keepIdx hd tl).map (fun j => (fieldsOf hd).getD j "")
          , index := ((List.range tl.length).map (fun i => PyKey.int i)).drop 1
          , rows := (tl.drop 1).map (fun l =>
              (keepIdx hd tl).map (fun j => (fieldCell l j).map py_strip)) })
    ∧ (∀ d : DataFrame, md_to_df (PyVal.str s) = .ok (PyVal.df d) →
        d.rows.length = tl.length - 1 ∧ d.cols.length = (keepIdx hd tl).length) := by
  have hany : tl.any
      (fun l => decide ((fieldsOf hd).length < (fieldsOf l).length)) = false := by
    rw [List.any_eq_false]
    intro l hm
    simpa using not_lt.mpr (hw l hm)
  have hok : read_csv s = .ok ⟨fieldsOf hd,
      (List.range tl.length).map (fun i => PyKey.int i),
      tl.map (fun l => padTo (fieldsOf hd).length (fieldsOf l))⟩ := by
    simp [read_csv, hl, hany]
  have hdrop : dropnaCols ⟨fieldsOf hd,
      (List.range tl.length).map (fun i => PyKey.int i),
      tl.map (fun l => padTo (fieldsOf hd).length (fieldsOf l))⟩
      = ⟨(keepIdx hd tl).map (fun j => (fieldsOf hd).getD j ""),
         (List.range tl.length).map (fun i => PyKey.int i),
         (tl.map (fun l => padTo (fieldsOf hd).length (fieldsOf l))).map
           (fun r => (keepIdx hd tl).map (fun j => r.getD j none))⟩ := by
    simp only [dropnaCols]
    rw [keep_eq hd tl]
  have heq : md_to_df (PyVal.str s)
      = .ok (PyVal.df
          { cols := (keepIdx hd tl).map (fun j => (fieldsOf hd).getD j "")
          , index := ((List.range tl.length).map (fun i => PyKey.int i)).drop 1
          , rows := (tl.drop 1).map (fun l =>
              (keepIdx hd tl).map (fun j => (fieldCell l j).map py_strip)) }) := by
    simp only [md_to_df, hok, Except.map, hdrop, iloc1, applymapStrip]
    simp only [Except.ok.injEq, PyVal.df.injEq, DataFrame.mk.injEq]
    refine ⟨trivial, trivial, ?_⟩
    simp only [← List.map_drop, List.map_map]
    apply List.map_congr_left
    intro l hlmem
    simp only [Function.comp]
    rw [List.map_map]
    apply List.map_congr_left
    intro j hjmem
    have hj : j < (fieldsOf hd).length := (by simpa [keepIdx] using hjmem :
      j < (fieldsOf hd).length ∧ ∃ x ∈ tl, (fieldCell x j).isSome = true).1
    simp only [Function.comp]
    rw [getD_padTo _ j _ hj]
    rfl
  refine ⟨heq, ?_⟩
  intro d h
  rw [heq] at h
  simp only [Except.ok.injEq, PyVal.df.injEq] at h
  rw [← h]
  constructor
  · simp [List.length_map, List.length_drop]
  · simp [List.length_map]

/-- C2 counterexample: on `"| Name | Score |\n|---|---|\n| ann | 10 |"` the
parse result's header names are `" Name "` and `" Score "` — the claimed
stripping of header names does not happen (headers are stripped only later,
in the JSON encoder). And on a table whose middle column is empty in every
data row, the column survives because the separator row's dashes count for
`dropna` (which runs before `.iloc[1:]` removes that row): the output has 3
columns where the claim predicts 2. -/
theorem md_to_df_header_strip_false :
    md_to_df (PyVal.str mdSample)
      = .ok (PyVal.df ⟨[" Name ", " Score "], [PyKey.int 1],
          [[some "ann", some "10"]]⟩)
    ∧ (" Name " : String) ≠ "Name"
    ∧ md_to_df (PyVal.str mdSampleEmptyCol)
      = .ok (PyVal.df ⟨[" A ", " B ", " C "], [PyKey.int 1],
          [[some "x", none, some "y"]]⟩)
    ∧ ([" A ", " B ", " C "] : List String).length ≠ 2 :=
  ⟨rfl, by decide, rfl, by decide⟩

/-- C2 witness: the shape theorem applied to the concrete three-line table,
with its conclusion evaluated. -/
theorem md_to_df_table_shape_witness :
    md_to_df (PyVal.str "| Name | Score |\n|---|---|\n| ann | 10 |")
      = .ok (PyVal.df ⟨[" Name ", " Score "], [PyKey.int 1],
          [[some "ann", some "10"]]⟩) := by
  have h := (md_to_df_table_shape "| Name | Score |\n|---|---|\n| ann | 10 |"
    "| Name | Score |" ["|---|---|", "| ann | 10 |"] rfl (by decide)).1
  rw [h]
  rfl
